import Mathlib

/-!
Verification of the chemistry materials-simulation repository.

Shallow embedding of the core modules:
  * `src/defect_detection/defect_detector.py` (class `DefectDetector`)
  * `src/data_management/cache_manager.py`   (class `CacheManager`)
  * `src/main.py`                            (class `MaterialSimulation`)
  * `src/data_interface/base_interface.py`   (class `MaterialProjectInterface`)

Conventions:
  * 3-D coordinates are rational triples; the Python code compares the
    Euclidean distance with the threshold 0.5, which for nonnegative
    quantities is equivalent to comparing the squared distance with 1/4,
    so the embedding stores squared distances and avoids square roots.
  * `scipy.spatial.cKDTree` is modelled as the plain list of its points;
    `tree.query(q)` returns the minimum distance to a point of the list,
    and on a tree with no points the query yields no neighbour (scipy
    reports an infinite distance there, which exceeds every threshold).
  * Python exceptions are modelled with `Except PyError`; functions that
    also mutate the cache directory return the directory state explicitly.
-/

/-- Exception classes that the embedded code can raise. -/
inductive PyError : Type
  | attributeError
  | typeError
  | jsonDecodeError
  | computationError
  | connectionError
  deriving DecidableEq, Repr

/-- A 3-D coordinate (rational components). -/
abbrev Point : Type := ℚ × ℚ × ℚ

/-- Squared Euclidean distance between two points. -/
def sqDist (p q : Point) : ℚ :=
  (p.1 - q.1) ^ 2 + (p.2.1 - q.2.1) ^ 2 + (p.2.2 - q.2.2) ^ 2

/-- `cKDTree(pts).query(q)`: the minimum squared distance from `q` to a
point of `pts`; `none` when the tree holds no points (scipy: distance inf). -/
def kdQuerySq (pts : List Point) (q : Point) : Option ℚ :=
  pts.foldr
    (fun p acc =>
      match acc with
      | none => some (sqDist p q)
      | some d => some (min (sqDist p q) d))
    none

/-- The squared occupancy tolerance: the source compares distances with the
hard-coded threshold `0.5` (`defect_detector.py`, lines 133 and 163). -/
def occupancyTolSq : ℚ := 1 / 4

/-- `tree.query(pos)[0] > 0.5` for a tree built over `pts`: true when the
nearest indexed point is strictly farther than the tolerance, and true on an
empty tree (infinite distance). -/
def farFrom (pts : List Point) (q : Point) : Bool :=
  match kdQuerySq pts q with
  | none => true
  | some d => decide (occupancyTolSq < d)

/-- The structure dictionary consumed by the calculators
(`{'atoms': [...], 'positions': [...], 'cell'/'lattice': [...]}`). -/
structure StructureData where
  atoms : List String
  positions : List Point
  lattice : List (List ℚ)
  deriving DecidableEq, Repr

/-- `ase.Atoms`: chemical symbols plus Cartesian positions. -/
structure Atoms where
  symbols : List String
  positions : List Point
  deriving DecidableEq, Repr

namespace DefectDetector

/-- `_get_perfect_lattice` (defect_detector.py lines 235-250): the method is
an unimplemented stub and returns the empty array `np.array([])` for every
input (its comment reads "需要根据具体材料实现", to be implemented per
material). -/
def get_perfect_lattice (_atoms : Atoms) : List Point := []

/-- The scan loop of `_detect_vacancy` (lines 129-136): given the
perfect-lattice positions and the actual atom positions, keep every
perfect position whose nearest actual atom lies strictly farther than the
occupancy tolerance. -/
def vacancyScan (perfect actual : List Point) : List Point :=
  perfect.filter (fun pos => farFrom actual pos)

/-- The scan loop of `_detect_interstitial` (lines 158-166): keep every
actual atom position whose nearest perfect-lattice position lies strictly
farther than the occupancy tolerance. -/
def interstitialScan (perfect actual : List Point) : List Point :=
  actual.filter (fun pos => farFrom perfect pos)

/-- `_detect_vacancy` (lines 105-136): scan the perfect-lattice positions
produced by `_get_perfect_lattice` against the actual atom positions.
(The unused `perfect_tree` built at line 126 has no effect on the result
and is not modelled.) -/
def detect_vacancy (atoms : Atoms) : List Point :=
  vacancyScan (get_perfect_lattice atoms) atoms.positions

/-- `_detect_interstitial` (lines 138-166): scan the actual atom positions
against the perfect-lattice positions produced by `_get_perfect_lattice`. -/
def detect_interstitial (atoms : Atoms) : List Point :=
  interstitialScan (get_perfect_lattice atoms) atoms.positions

/-- `_detect_substitutional` (lines 168-185): unimplemented, returns `[]`. -/
def detect_substitutional (_atoms : Atoms) : List Point := []

/-- `_detect_dislocation` (lines 187-204): unimplemented, returns `[]`. -/
def detect_dislocation (_atoms : Atoms) : List Point := []

/-- `_calculate_perfect_energy` (lines 252-267): stub, returns `0.0`. -/
def calculate_perfect_energy (_atoms : Atoms) : ℚ := 0

/-- `_calculate_defect_energy` (lines 269-288): stub, returns `0.0`. -/
def calculate_defect_energy (_atoms : Atoms) (_defectType : String)
    (_defectPositions : List Point) : ℚ := 0

/-- `_calculate_formation_energies` (lines 206-233): for every defect
category with a non-empty (truthy) position list, store
`defect_energy - perfect_energy` under the category's key; empty
categories get no entry.  The dict is modelled as an association list in
iteration order. -/
def calculate_formation_energies (atoms : Atoms)
    (defects : List (String × List Point)) : List (String × ℚ) :=
  defects.filterMap (fun td =>
    if td.2.isEmpty then none
    else some (td.1, calculate_defect_energy atoms td.1 td.2 -
                     calculate_perfect_energy atoms))

/-- `_estimate_concentration` (lines 290-305): stub, returns `0.0`. -/
def estimate_concentration (_defects : List (String × List Point)) : ℚ := 0

/-- The record returned by `detect_defects` (lines 99-103). -/
structure DefectReport where
  defects : List (String × List Point)
  formation_energies : List (String × ℚ)
  defect_concentration : ℚ
  deriving DecidableEq, Repr

/-- Lines 91-103 of `detect_defects`, given an `ase.Atoms` value: run the
four detectors in the insertion order of `self.defect_types`
(vacancy, interstitial, substitutional, dislocation; `__init__`,
lines 61-66), compute formation energies, and assemble the report. -/
def detect_defects_body (atoms : Atoms) : DefectReport :=
  let defects : List (String × List Point) :=
    [("vacancy", detect_vacancy atoms),
     ("interstitial", detect_interstitial atoms),
     ("substitutional", detect_substitutional atoms),
     ("dislocation", detect_dislocation atoms)]
  { defects := defects
    formation_energies := calculate_formation_energies atoms defects
    defect_concentration := estimate_concentration defects }

/-- The attribute names defined on class `DefectDetector`
(defect_detector.py lines 45-305): exactly these methods appear in the
class body.  `_convert_to_ase_atoms` is not among them, and the class has
no base class other than `object`. -/
def classAttrs : List String :=
  [("__init__"), ("detect_defects"), ("_detect_vacancy"),
   ("_detect_interstitial"), ("_detect_substitutional"),
   ("_detect_dislocation"), ("_calculate_formation_energies"),
   ("_get_perfect_lattice"), ("_calculate_perfect_energy"),
   ("_calculate_defect_energy"), ("_estimate_concentration")]

/-- The dictionary-to-`Atoms` conversion that the sibling calculators
implement (`structure_data['atoms']`, `structure_data['positions']`);
reachable only if the attribute existed on this class. -/
def convertStructure (sd : StructureData) : Atoms :=
  { symbols := sd.atoms, positions := sd.positions }

/-- `detect_defects` (lines 68-103): its first statement evaluates
`self._convert_to_ase_atoms(structure_data)`; Python resolves the
attribute on the instance's class first, raising `AttributeError` when the
name is not defined there. -/
def detect_defects (sd : StructureData) : Except PyError DefectReport :=
  if classAttrs.contains ("_convert_to_ase_atoms") then
    .ok (detect_defects_body (convertStructure sd))
  else
    .error .attributeError

end DefectDetector

/-! ### Helper lemmas about the nearest-neighbour query -/

/-- If `x` is one of the indexed points, the query returns a distance that
is at most the squared distance from the query point to `x`. -/
theorem kdQuerySq_le_of_mem (pts : List Point) (q x : Point)
    (hx : x ∈ pts) : ∃ d, kdQuerySq pts q = some d ∧ d ≤ sqDist x q := by
  induction pts with
  | nil => cases hx
  | cons p rest ih =>
    rcases List.mem_cons.mp hx with h | h
    · subst h
      cases hrest : kdQuerySq rest q with
      | none =>
        exact ⟨sqDist x q, by simp [kdQuerySq] at hrest ⊢; simp [kdQuerySq, hrest], le_refl _⟩
      | some d =>
        refine ⟨min (sqDist x q) d, ?_, min_le_left _ _⟩
        simp [kdQuerySq] at hrest ⊢
        simp [kdQuerySq, hrest]
    · obtain ⟨d, hd, hle⟩ := ih h
      cases hhead : kdQuerySq (p :: rest) q with
      | none =>
        exfalso
        simp [kdQuerySq] at hhead hd
        rw [hd] at hhead
        cases hhead
      | some d2 =>
        refine ⟨d2, rfl, ?_⟩
        simp [kdQuerySq] at hhead hd
        rw [hd] at hhead
        have : min (sqDist p q) d = d2 := by
          injection hhead
        calc d2 = min (sqDist p q) d := this.symm
          _ ≤ d := min_le_right _ _
          _ ≤ sqDist x q := hle

/-- The squared distance from a point to itself is zero. -/
theorem sqDist_self (p : Point) : sqDist p p = 0 := by
  simp [sqDist]

/-- A point that belongs to the indexed set is never reported as far from
that set: its nearest-neighbour distance is zero, below the tolerance. -/
theorem not_farFrom_self (pts : List Point) (x : Point) (hx : x ∈ pts) :
    farFrom pts x = false := by
  obtain ⟨d, hd, hle⟩ := kdQuerySq_le_of_mem pts x x hx
  rw [sqDist_self] at hle
  simp [farFrom, hd, occupancyTolSq]
  linarith

/-! ### Claims C1, C2, C7 -/

/-- The §8 example structure `{Si, Si, O, O}` at
`[[0,0,0],[1.5,1.5,1.5],[0.5,0.5,0.5],[1.0,1.0,1.0]]` with the fourth atom
removed: the vacancy scenario's input. -/
def atomsMissingOne : Atoms :=
  { symbols := [("Si"), ("Si"), ("O")]
    positions := [(0, 0, 0), (3/2, 3/2, 3/2), (1/2, 1/2, 1/2)] }

/-- The four ideal sites of that example structure. -/
def idealSites : List Point :=
  [(0, 0, 0), (3/2, 3/2, 3/2), (1/2, 1/2, 1/2), (1, 1, 1)]

/-- Claim C1: vacancy detection is claimed to report as vacancies exactly
the ideal positions farther than the tolerance from every actual atom, and
to report exactly one vacancy when a single atom is removed from its ideal
site.  On the code this fails: `_get_perfect_lattice` is a stub returning
the empty array, so `_detect_vacancy` reports no vacancy for any structure
— in particular none for the one-atom-removed structure — even though the
scan loop itself, applied to the intended ideal sites, would report
exactly the missing site. -/
theorem c1_vacancy_stub_eval :
    DefectDetector.get_perfect_lattice atomsMissingOne = [] ∧
    DefectDetector.detect_vacancy atomsMissingOne = [] ∧
    DefectDetector.vacancyScan idealSites atomsMissingOne.positions
      = [(1, 1, 1)] := by
  refine ⟨rfl, rfl, ?_⟩
  norm_num [DefectDetector.vacancyScan, idealSites, atomsMissingOne,
    farFrom, kdQuerySq, sqDist, occupancyTolSq, List.filter, min_def]

/-- The example structure with one extra atom at `(2.25, 2.25, 2.25)`,
farther than the tolerance from every ideal site: the interstitial
scenario's input. -/
def atomsWithExtra : Atoms :=
  { symbols := [("Si"), ("Si"), ("O"), ("O"), ("O")]
    positions := [(0, 0, 0), (3/2, 3/2, 3/2), (1/2, 1/2, 1/2), (1, 1, 1),
                  (9/4, 9/4, 9/4)] }

/-- Claim C2: interstitial detection is claimed to report exactly the
actual atoms farther than the tolerance from every ideal site — one
interstitial for one extra atom.  On the code this fails: the ideal
lattice is the empty stub, the nearest-ideal query finds no neighbour
(infinite distance), and every actual atom of the structure is flagged as
an interstitial (five, not one), even though the scan loop applied to the
intended ideal sites would flag exactly the extra atom. -/
theorem c2_interstitial_stub_eval :
    DefectDetector.detect_interstitial atomsWithExtra
      = atomsWithExtra.positions ∧
    DefectDetector.interstitialScan idealSites atomsWithExtra.positions
      = [(9/4, 9/4, 9/4)] := by
  constructor
  · simp [DefectDetector.detect_interstitial, DefectDetector.interstitialScan,
      DefectDetector.get_perfect_lattice, farFrom, kdQuerySq]
  · norm_num [DefectDetector.interstitialScan, idealSites, atomsWithExtra,
      farFrom, kdQuerySq, sqDist, occupancyTolSq, List.filter, min_def]

/-- Claim C7: within one defect-detection call the vacancy and
interstitial coordinate sets are disjoint.  `_detect_vacancy` and
`_detect_interstitial` share the perfect-lattice list and the actual
position list of the structure; a reported vacancy is farther than the
tolerance from every actual atom, while a reported interstitial is itself
an actual atom, whose distance to the actual set is zero — so no
coordinate can be reported as both. -/
theorem c7_vacancy_interstitial_disjoint
    (perfect actual : List Point) (p : Point)
    (hv : p ∈ DefectDetector.vacancyScan perfect actual) :
    p ∉ DefectDetector.interstitialScan perfect actual := by
  intro hi
  have hvf : farFrom actual p = true :=
    (List.mem_filter.mp hv).2
  have hia : p ∈ actual :=
    (List.mem_filter.mp hi).1
  have := not_farFrom_self actual p hia
  rw [hvf] at this
  cases this

/-- Witness for C7: in a concrete structure with one ideal site far from
the single actual atom, the ideal site is reported as a vacancy and hence
not as an interstitial. -/
theorem c7_vacancy_interstitial_disjoint_wit :
    ((0 : ℚ), (0 : ℚ), (0 : ℚ)) ∈
      DefectDetector.vacancyScan [((0 : ℚ), (0 : ℚ), (0 : ℚ))]
        [((10 : ℚ), (0 : ℚ), (0 : ℚ))] ∧
    ((0 : ℚ), (0 : ℚ), (0 : ℚ)) ∉
      DefectDetector.interstitialScan [((0 : ℚ), (0 : ℚ), (0 : ℚ))]
        [((10 : ℚ), (0 : ℚ), (0 : ℚ))] := by
  have hmem : ((0 : ℚ), (0 : ℚ), (0 : ℚ)) ∈
      DefectDetector.vacancyScan [((0 : ℚ), (0 : ℚ), (0 : ℚ))]
        [((10 : ℚ), (0 : ℚ), (0 : ℚ))] := by
    norm_num [DefectDetector.vacancyScan, farFrom, kdQuerySq, sqDist,
      occupancyTolSq, List.filter]
  exact ⟨hmem, c7_vacancy_interstitial_disjoint _ _ _ hmem⟩

/-! ## CacheManager (`src/data_management/cache_manager.py`)

The cache directory is modelled as a list of files; each file has a name,
an on-disk byte size, and either a well-formed cache record
`{timestamp, results}` or contents that do not parse as one (`corrupt`).
Timestamps are rationals in day units, so the Python comparison
`datetime.now() - cache_time > timedelta(days=max_age_days)` becomes
`now - ts > max_age_days`.  Operations that can raise return `Except`;
operations that mutate the directory return the new directory. -/

namespace CacheManager

/-- Parsed contents of one file in the cache directory: either a
well-formed `{'timestamp': ..., 'results': ...}` record, or contents on
which `json.load` / `datetime.fromisoformat` would fail. -/
inductive FileData (A : Type) : Type
  | cacheEntry (timestamp : ℚ) (results : A)
  | corrupt
  deriving DecidableEq

/-- One file of the cache directory. -/
structure CFile (A : Type) : Type where
  name : String
  size : ℕ
  data : FileData A
  deriving DecidableEq

/-- The cache directory: `os.listdir` order of its files. -/
abbrev FS (A : Type) : Type := List (CFile A)

variable {A : Type}

/-- `os.path.join(self.cache_dir, f'{calculation_id}.json')`: within the
fixed cache directory a file is addressed by `calculation_id + '.json'`. -/
def cacheName (id : String) : String := id ++ (".json")

/-- `os.path.exists` / `open(..., 'r')`: the first file with the given
name, if any. -/
def lookupFile (name : String) (fs : FS A) : Option (CFile A) :=
  fs.find? (fun f => f.name == name)

/-- `os.remove`: drop the file with the given name. -/
def removeFile (name : String) (fs : FS A) : FS A :=
  fs.filter (fun f => f.name != name)

/-- `cache_results` (cache_manager.py lines 67-88): write
`{'timestamp': now, 'results': results}` to `<id>.json`,
overwriting any previous file of that name (`open(..., 'w')`).
The byte length of the serialized JSON is not modelled (size 0);
no claim relates `cache_results` to file sizes. -/
def cache_results (id : String) (results : A) (now : ℚ) (fs : FS A) : FS A :=
  ⟨cacheName id, 0, .cacheEntry now results⟩ :: removeFile (cacheName id) fs

/-- `get_results` (lines 90-122): `None` when the file does not exist;
`json.load`/`fromisoformat` raise on a corrupt file (the method has no
try/except); an entry older than `max_age_days` is removed and `None`
returned; otherwise the stored payload is returned. -/
def get_results (id : String) (max_age_days : ℚ) (now : ℚ) (fs : FS A) :
    Except PyError (Option A × FS A) :=
  match lookupFile (cacheName id) fs with
  | none => .ok (none, fs)
  | some f =>
    match f.data with
    | .corrupt => .error .jsonDecodeError
    | .cacheEntry ts results =>
      if max_age_days < now - ts then .ok (none, removeFile (cacheName id) fs)
      else .ok (some results, fs)

/-- `filename.endswith('.json')`: character-level suffix test (stated on
the character list of the string so that it evaluates inside the kernel;
it agrees with `String.endsWith`). -/
def endsWithJson (s : String) : Bool :=
  List.isSuffixOf (".json").data s.data

/-- `clear_cache` (lines 124-150): iterate over the directory listing;
files whose names do not end in `.json` are skipped (`continue`); with
`max_age_days=None` every `.json` file is removed unread; otherwise each
`.json` file is read (raising on a corrupt one and leaving the remaining
files untouched) and removed exactly when older than `max_age_days`.
Returns the directory after the loop together with the raised exception,
if any. -/
def clear_cache (max_age_days : Option ℚ) (now : ℚ) :
    FS A → FS A × Option PyError
  | [] => ([], none)
  | f :: rest =>
    if endsWithJson f.name then
      match max_age_days with
      | none => clear_cache max_age_days now rest
      | some d =>
        match f.data with
        | .corrupt => (f :: rest, some .jsonDecodeError)
        | .cacheEntry ts _ =>
          if d < now - ts then clear_cache max_age_days now rest
          else
            let r := clear_cache max_age_days now rest
            (f :: r.1, r.2)
    else
      let r := clear_cache max_age_days now rest
      (f :: r.1, r.2)

/-- `get_cache_size` (lines 152-167): sum of the sizes of all files in
the directory, `.json` or not. -/
def get_cache_size (fs : FS A) : ℕ :=
  (fs.map (fun f => f.size)).sum

/-! ### Lemmas about the cache operations -/

/-- Reading the file just written by `cache_results` finds it. -/
theorem lookup_cache_results (id : String) (results : A) (now : ℚ)
    (fs : FS A) :
    lookupFile (cacheName id) (cache_results id results now fs)
      = some ⟨cacheName id, 0, .cacheEntry now results⟩ := by
  simp [lookupFile, cache_results, List.find?]

/-- After `removeFile` no file of that name remains. -/
theorem lookup_removeFile (name : String) (fs : FS A) :
    lookupFile name (removeFile name fs) = none := by
  rw [lookupFile, List.find?_eq_none]
  intro f hf
  have := (List.mem_filter.mp hf).2
  simpa [bne] using this

end CacheManager

/-! ### Claims C3, C8, C10 -/

/-- Claim C3: a `get_results` after `cache_results` for the same
identifier returns exactly the stored payload while the entry's age
`now - timestamp` is at most `max_age_days`; once the age strictly
exceeds the window, `get_results` returns `None` and deletes the backing
file, so a subsequent lookup finds nothing. -/
theorem c3_cache_roundtrip {A : Type} (id : String) (payload : A)
    (t₀ t₁ maxAge : ℚ) (fs : CacheManager.FS A) :
    (t₁ - t₀ ≤ maxAge →
      CacheManager.get_results id maxAge t₁
          (CacheManager.cache_results id payload t₀ fs)
        = .ok (some payload, CacheManager.cache_results id payload t₀ fs)) ∧
    (maxAge < t₁ - t₀ →
      CacheManager.get_results id maxAge t₁
          (CacheManager.cache_results id payload t₀ fs)
        = .ok (none, CacheManager.removeFile (CacheManager.cacheName id)
            (CacheManager.cache_results id payload t₀ fs)) ∧
      CacheManager.lookupFile (CacheManager.cacheName id)
          (CacheManager.removeFile (CacheManager.cacheName id)
            (CacheManager.cache_results id payload t₀ fs)) = none) := by
  constructor
  · intro h
    rw [CacheManager.get_results, CacheManager.lookup_cache_results]
    simp only
    rw [if_neg (by simpa using not_lt.mpr h)]
  · intro h
    refine ⟨?_, CacheManager.lookup_removeFile _ _⟩
    rw [CacheManager.get_results, CacheManager.lookup_cache_results]
    simp only
    rw [if_pos (by simpa using h)]

/-- Witness for C3 at concrete inputs: payload `7` stored at time `0`
into an empty directory is returned at age `1 ≤ 30`, and at age `40 > 30`
the read misses and the entry is gone. -/
theorem c3_cache_roundtrip_wit :
    (CacheManager.get_results ("mp-1") 30 1
        (CacheManager.cache_results ("mp-1") (7 : ℕ) 0 [])
      = .ok (some 7, CacheManager.cache_results ("mp-1") (7 : ℕ) 0 [])) ∧
    (CacheManager.get_results ("mp-1") 30 40
        (CacheManager.cache_results ("mp-1") (7 : ℕ) 0 [])
      = .ok (none, CacheManager.removeFile (CacheManager.cacheName ("mp-1"))
          (CacheManager.cache_results ("mp-1") (7 : ℕ) 0 [])) ∧
     CacheManager.lookupFile (CacheManager.cacheName ("mp-1"))
        (CacheManager.removeFile (CacheManager.cacheName ("mp-1"))
          (CacheManager.cache_results ("mp-1") (7 : ℕ) 0 [])) = none) :=
  ⟨(c3_cache_roundtrip ("mp-1") 7 0 1 30 []).1 (by norm_num),
   (c3_cache_roundtrip ("mp-1") 7 0 40 30 []).2 (by norm_num)⟩

/-- A directory holding one corrupt cache entry for identifier `mp-1`. -/
def corruptFS : CacheManager.FS ℕ :=
  [⟨CacheManager.cacheName ("mp-1"), 10, .corrupt⟩]

/-- Counterexample to claim C8 as stated: for a corrupted on-disk entry,
`get_results` does not return the absent value — it raises the JSON
decode error (`get_results` has no try/except around `json.load`). -/
theorem c8_corrupt_raises_cex :
    CacheManager.get_results ("mp-1") 30 0 corruptFS
      = .error .jsonDecodeError := by
  rfl

/-- Amended C8: for every identifier whose cache file exists but is
corrupted, `get_results` propagates the decode error to the caller
instead of treating the entry as a miss. -/
theorem c8_corrupt_raises {A : Type} (id : String) (maxAge now : ℚ)
    (fs : CacheManager.FS A) (f : CacheManager.CFile A)
    (hf : CacheManager.lookupFile (CacheManager.cacheName id) fs = some f)
    (hc : f.data = .corrupt) :
    CacheManager.get_results id maxAge now fs = .error .jsonDecodeError := by
  rw [CacheManager.get_results, hf]
  simp only
  rw [hc]

/-- Witness for the amended C8 at a concrete corrupted directory. -/
theorem c8_corrupt_raises_wit :
    CacheManager.get_results ("mp-1") 7 2 corruptFS
      = .error .jsonDecodeError :=
  c8_corrupt_raises ("mp-1") 7 2 corruptFS
    ⟨CacheManager.cacheName ("mp-1"), 10, .corrupt⟩ (by rfl) (by rfl)

/-! ### Claim C10: frame property of `clear_cache` vs `get_cache_size` -/

/-- Definitional unfolding of `clear_cache` on a non-empty listing. -/
theorem clear_cache_cons {A : Type} (m : Option ℚ) (now : ℚ)
    (f : CacheManager.CFile A) (rest : CacheManager.FS A) :
    CacheManager.clear_cache m now (f :: rest) =
    if CacheManager.endsWithJson f.name then
      match m with
      | none => CacheManager.clear_cache m now rest
      | some d =>
        match f.data with
        | .corrupt => (f :: rest, some .jsonDecodeError)
        | .cacheEntry ts _ =>
          if d < now - ts then CacheManager.clear_cache m now rest
          else
            let r := CacheManager.clear_cache m now rest
            (f :: r.1, r.2)
    else
      let r := CacheManager.clear_cache m now rest
      (f :: r.1, r.2) := rfl

/-- `clear_cache` only ever deletes files: its resulting directory is a
sublist of the input directory (files are never altered or added), in
every case including a decode error that stops the loop early. -/
theorem clear_cache_fst_sublist {A : Type} (m : Option ℚ) (now : ℚ)
    (fs : CacheManager.FS A) :
    (CacheManager.clear_cache m now fs).1.Sublist fs := by
  induction fs with
  | nil => simp [CacheManager.clear_cache]
  | cons f rest ih =>
    rw [clear_cache_cons]
    split
    · split
      · exact ih.cons f
      · split
        · exact List.Sublist.refl _
        · split
          · exact ih.cons f
          · exact ih.cons₂ f
    · exact ih.cons₂ f

/-- `clear_cache` leaves the files whose names do not end in `.json`
exactly as they were, whatever `max_age_days` is. -/
theorem clear_cache_keeps_nonjson {A : Type} (m : Option ℚ) (now : ℚ)
    (fs : CacheManager.FS A) :
    (CacheManager.clear_cache m now fs).1.filter
        (fun f => !(CacheManager.endsWithJson f.name))
      = fs.filter (fun f => !(CacheManager.endsWithJson f.name)) := by
  induction fs with
  | nil => simp [CacheManager.clear_cache]
  | cons f rest ih =>
    rw [clear_cache_cons]
    split
    · rename_i hj
      split
      · simpa [List.filter_cons, hj] using ih
      · split
        · rfl
        · split
          · simpa [List.filter_cons, hj] using ih
          · simpa [List.filter_cons, hj] using ih
    · rename_i hj
      simp only [Bool.not_eq_true] at hj
      simp [List.filter_cons, hj, ih]

/-- With `max_age_days=None`, `clear_cache` removes exactly the `.json`
files, reads nothing, and raises nothing. -/
theorem clear_cache_none_eq {A : Type} (now : ℚ) (fs : CacheManager.FS A) :
    CacheManager.clear_cache none now fs
      = (fs.filter (fun f => !(CacheManager.endsWithJson f.name)), none) := by
  induction fs with
  | nil => simp [CacheManager.clear_cache]
  | cons f rest ih =>
    rw [clear_cache_cons]
    split
    · rename_i hj
      simp [List.filter_cons, hj, ih]
    · rename_i hj
      simp only [Bool.not_eq_true] at hj
      simp [List.filter_cons, hj, ih]

/-- A demonstration directory: one plain-text file of 5 bytes and one
cache entry of 7 bytes. -/
def mixedFS : CacheManager.FS ℕ :=
  [⟨("readme.txt"), 5, .corrupt⟩,
   ⟨CacheManager.cacheName ("mp-1"), 7, .cacheEntry 0 3⟩]

/-- Claim C10: `clear_cache` deletes only files named `*.json` and leaves
every other file unchanged (for every `max_age_days`, `None` included),
while `get_cache_size` sums all files; hence after `clear_cache(None)`
the reported size is the total size of the non-`.json` files — as the
concrete directory `mixedFS` shows, that size need not be zero. -/
theorem c10_clear_cache_frame :
    (∀ (A : Type) (m : Option ℚ) (now : ℚ) (fs : CacheManager.FS A),
      (CacheManager.clear_cache m now fs).1.Sublist fs ∧
      (CacheManager.clear_cache m now fs).1.filter
          (fun f => !(CacheManager.endsWithJson f.name))
        = fs.filter (fun f => !(CacheManager.endsWithJson f.name))) ∧
    (∀ (A : Type) (now : ℚ) (fs : CacheManager.FS A),
      CacheManager.get_cache_size (CacheManager.clear_cache none now fs).1
        = CacheManager.get_cache_size
            (fs.filter (fun f => !(CacheManager.endsWithJson f.name)))) ∧
    CacheManager.get_cache_size (CacheManager.clear_cache none 0 mixedFS).1
      = 5 := by
  refine ⟨fun A m now fs => ⟨clear_cache_fst_sublist m now fs,
            clear_cache_keeps_nonjson m now fs⟩,
          fun A now fs => by rw [clear_cache_none_eq],
          ?_⟩
  rw [clear_cache_none_eq]
  decide

/-! ## MaterialSimulation (`src/main.py`) and
`MaterialProjectInterface.get_structure` (`src/data_interface/base_interface.py`)

The orchestrator's collaborators are the callables installed by
`__init__`; each computation stage takes the (possibly `None`) structure
and either returns an opaque stage record (type `T`) or raises. -/

/-- The joined record assembled at main.py lines 125-134: one entry per
computation stage plus the predictions added at line 134. -/
structure Results (T : Type) where
  force_field : T
  defects : T
  dft : T
  tem_simulation : T
  predictions : T
  deriving DecidableEq

/-- A `MaterialSimulation` instance (main.py lines 51-64): `fetchOutcome`
is the external `MPRester` lookup performed inside
`MaterialProjectInterface.get_structure`; the five stage functions are
`calculate_force_field`, `detect_defects`, `run_dft`,
`_run_tem_simulation` and `predict_properties` applied to the fetched
structure. -/
structure MaterialSimulation (T : Type) where
  fetchOutcome : String → Except PyError StructureData
  ffStage : Option StructureData → Except PyError T
  defectStage : Option StructureData → Except PyError T
  dftStage : Option StructureData → Except PyError T
  temStage : Option StructureData → Except PyError T
  mlPredict : Option StructureData → Except PyError T

/-- `MaterialProjectInterface.get_structure` (base_interface.py lines
112-142): on success builds the structure dictionary; every exception of
the external lookup is caught (`except RequestException` /
`except Exception`), printed, and the method falls through to
`return None`. -/
def MaterialSimulation.get_structure {T : Type} (sim : MaterialSimulation T)
    (material_id : String) : Option StructureData :=
  match sim.fetchOutcome material_id with
  | .ok s => some s
  | .error _ => none

/-- `run_comprehensive_simulation` (main.py lines 108-139).  Cache check
with the default `max_age_days=30`; a cached record is a non-empty dict,
hence truthy, and is returned on a hit.  On a miss the structure is
fetched, the four stage computations are submitted to a thread pool, and
their outcomes are collected in program order
`force_field, defects, dft, tem` by `future.result()`, which re-raises
the first stored exception — the collection has no try/except.  Then
`predict_properties` runs, the joined record is written to the cache, and
returned.  The pair also carries the final cache-directory state (on a
raise, the directory as it was at that point). -/
def MaterialSimulation.run_comprehensive_simulation {T : Type}
    (sim : MaterialSimulation T) (material_id : String) (now : ℚ)
    (fs : CacheManager.FS (Results T)) :
    Except PyError (Results T) × CacheManager.FS (Results T) :=
  match CacheManager.get_results material_id 30 now fs with
  | .error e => (.error e, fs)
  | .ok (some cached, fs₁) => (.ok cached, fs₁)
  | .ok (none, fs₁) =>
    let st := sim.get_structure material_id
    match sim.ffStage st with
    | .error e => (.error e, fs₁)
    | .ok ff =>
      match sim.defectStage st with
      | .error e => (.error e, fs₁)
      | .ok de =>
        match sim.dftStage st with
        | .error e => (.error e, fs₁)
        | .ok df =>
          match sim.temStage st with
          | .error e => (.error e, fs₁)
          | .ok te =>
            match sim.mlPredict st with
            | .error e => (.error e, fs₁)
            | .ok ml =>
              let results : Results T := ⟨ff, de, df, te, ml⟩
              (.ok results, CacheManager.cache_results material_id results now fs₁)

/-! ### Claims C4 and C5 -/

/-- A concrete simulator whose imaging stage raises and whose fetch and
other stages succeed. -/
def simTemFails : MaterialSimulation ℕ :=
  { fetchOutcome := fun _ => .ok ⟨[("Si")], [(0, 0, 0)], []⟩
    ffStage := fun _ => .ok 1
    defectStage := fun _ => .ok 2
    dftStage := fun _ => .ok 3
    temStage := fun _ => .error .computationError
    mlPredict := fun _ => .ok 4 }

/-- Counterexample to claim C4 as stated: in a cache-miss run where only
the imaging stage fails, `run_comprehensive_simulation` does not record a
per-stage success-or-failure status and deliver the other stages'
results — it re-raises the imaging exception, delivers nothing, and the
cache directory stays empty. -/
theorem c4_join_abort_cex :
    MaterialSimulation.run_comprehensive_simulation simTemFails ("mp-1") 0 []
      = (.error .computationError, []) := rfl

/-- Amended C4: in a cache-miss run, a stage failure is not isolated.
When the imaging stage raises, `run_comprehensive_simulation` aborts with
the first failing stage's exception (collection order: force-field,
defects, dft, tem): no per-stage status exists, no results reach the
caller, and the cache directory is exactly what the cache check left
(nothing is written). -/
theorem c4_join_abort {T : Type} (sim : MaterialSimulation T)
    (material_id : String) (now : ℚ)
    (fs fs₁ : CacheManager.FS (Results T))
    (hmiss : CacheManager.get_results material_id 30 now fs
      = .ok (none, fs₁))
    (e : PyError)
    (htem : sim.temStage (sim.get_structure material_id) = .error e) :
    ∃ e₂, MaterialSimulation.run_comprehensive_simulation sim material_id
      now fs = (.error e₂, fs₁) := by
  rw [MaterialSimulation.run_comprehensive_simulation, hmiss]
  cases hff : sim.ffStage (sim.get_structure material_id) with
  | error e₁ => exact ⟨e₁, by simp [hff]⟩
  | ok ff =>
    cases hde : sim.defectStage (sim.get_structure material_id) with
    | error e₁ => exact ⟨e₁, by simp [hff, hde]⟩
    | ok de =>
      cases hdf : sim.dftStage (sim.get_structure material_id) with
      | error e₁ => exact ⟨e₁, by simp [hff, hde, hdf]⟩
      | ok df => exact ⟨e, by simp [hff, hde, hdf, htem]⟩

/-- Witness for the amended C4: the concrete failing-imaging simulator on
an empty cache aborts with some stage's exception and writes nothing. -/
theorem c4_join_abort_wit :
    ∃ e₂, MaterialSimulation.run_comprehensive_simulation simTemFails
      ("mp-7") 0 [] = (.error e₂, []) :=
  c4_join_abort simTemFails ("mp-7") 0 [] [] (by rfl)
    .computationError (by rfl)

/-- A concrete simulator with the data source unreachable, whose stages
behave as the real calculators do on a `None` structure: the force-field,
dft and tem calculators' first step subscripts `structure_data['atoms']`
inside `_convert_to_ase_atoms`, raising `TypeError` on `None`; the defect
stage raises `AttributeError` (`DefectDetector` has no
`_convert_to_ase_atoms` at all). -/
def simFetchFails : MaterialSimulation ℕ :=
  { fetchOutcome := fun _ => .error .connectionError
    ffStage := fun st => match st with
      | none => .error .typeError
      | some _ => .ok 1
    defectStage := fun _ => .error .attributeError
    dftStage := fun st => match st with
      | none => .error .typeError
      | some _ => .ok 3
    temStage := fun st => match st with
      | none => .error .typeError
      | some _ => .ok 4
    mlPredict := fun _ => .ok 5 }

/-- Claim C5 at the failing input (identifier `mp-1`, empty cache, data
source unreachable): `get_structure` swallows the connection error and
returns `None` instead of letting the fetch failure terminate the
request; the run then dispatches the stages on `None` and aborts with the
force-field stage's `TypeError` — not with any data-unavailable error —
while, as the claim states, no cache entry is written (the directory
stays empty). -/
theorem c5_fetch_swallow_eval :
    MaterialSimulation.get_structure simFetchFails ("mp-1") = none ∧
    MaterialSimulation.run_comprehensive_simulation simFetchFails
      ("mp-1") 0 [] = (.error .typeError, []) :=
  ⟨rfl, rfl⟩

/-! ### Claim C6 -/

/-- A detection outcome with exactly one non-empty category, in the shape
`_calculate_formation_energies` receives from `detect_defects`. -/
def defectsOneInterstitial : List (String × List Point) :=
  [("vacancy", []), ("interstitial", [(3/4, 3/4, 3/4)]),
   ("substitutional", []), ("dislocation", [])]

/-- Claim C6 at the failing input: the energy evaluator consists of the
unavailable stubs `_calculate_perfect_energy` and
`_calculate_defect_energy` (both return `0.0`), yet
`_calculate_formation_energies` still inserts the entry `0.0`
(`= 0.0 - 0.0`) for the non-empty interstitial category instead of
leaving the entry absent. -/
theorem c6_formation_energy_zero_entry :
    DefectDetector.calculate_formation_energies
        ⟨[("Si")], [(0, 0, 0)]⟩ defectsOneInterstitial
      = [("interstitial", 0)] := by
  norm_num [DefectDetector.calculate_formation_energies,
    DefectDetector.calculate_defect_energy,
    DefectDetector.calculate_perfect_energy,
    defectsOneInterstitial, List.filterMap]

/-! ### Claim C9 -/

/-- Claim C9: for every input structure dictionary, `detect_defects`
raises `AttributeError` before any detection runs, because its first
statement resolves `self._convert_to_ase_atoms`, a name defined nowhere
on the class; consequently it never returns a defect record. -/
theorem c9_detect_defects_attribute_error (sd : StructureData) :
    DefectDetector.detect_defects sd = .error .attributeError := by
  rw [DefectDetector.detect_defects, if_neg]
  decide
